import Mathlib

/-!
Shallow embedding of `src/api_server.py` (Facebook Users Search API):
the query-translation and response-shaping layer of a FastAPI façade over
an Elasticsearch backend, together with its auth gate and handlers.
Wall-clock timing (`query_time_ms`) and network transport are outside the
embedding; backends are modelled as explicit records of call results and
handlers additionally return the trace of backend calls they issue.
-/

/-- A loosely-typed JSON scalar occurring in a backend hit's `_source`
field bag. `vint` is a JSON integer; `vstr` is a JSON string (which
pydantic will coerce to an `int` field only when it spells an integer). -/
inductive Value where
  | vint (n : Int)
  | vstr (s : String)
deriving DecidableEq, Repr

/-- The canonical output record (`PersonResponse` in the source): all nine
fields optional, defaulting to `None`. -/
structure PersonResponse where
  uid : Option Int
  first_name : Option String
  last_name : Option String
  email : Option String
  phone : Option String
  gender : Option String
  location : Option String
  hometown : Option String
  relationship_status : Option String
deriving DecidableEq, Repr

/-- The nine field names of `PersonResponse`. -/
def personFieldNames : List String :=
  ["uid", "first_name", "last_name", "email", "phone", "gender",
   "location", "hometown", "relationship_status"]

/-- The numeric value of a decimal digit character, `none` otherwise. -/
def digitVal (c : Char) : Option Nat :=
  if '0' ≤ c && c ≤ '9' then some (c.toNat - '0'.toNat) else none

/-- Accumulating decimal parse of a character list; fails on the first
non-digit. -/
def parseNatCharsAux : List Char → Nat → Option Nat
  | [], acc => some acc
  | c :: cs, acc =>
    match digitVal c with
    | none => none
    | some d => parseNatCharsAux cs (acc * 10 + d)

/-- Decimal parse of a non-empty all-digit character list. -/
def parseNatChars (cs : List Char) : Option Nat :=
  match cs with
  | [] => none
  | _ => parseNatCharsAux cs 0

/-- Whether a string spells an integer (an optional leading minus sign
followed by at least one digit), and which: the integer strings pydantic
coerces into an `int` field. -/
def parseIntString (s : String) : Option Int :=
  match s.data with
  | '-' :: rest => (parseNatChars rest).map (fun n => -(n : Int))
  | l => (parseNatChars l).map (fun n => (n : Int))

/-- Pydantic validation of an `Optional[int]` field from a field bag:
missing gives `None`; an integer is taken as is; a string is coerced when
it spells an integer and is a validation error otherwise. -/
def getIntField (hit : List (String × Value)) (k : String) :
    Except String (Option Int) :=
  match List.lookup k hit with
  | none => .ok none
  | some (.vint n) => .ok (some n)
  | some (.vstr s) =>
    match parseIntString s with
    | some n => .ok (some n)
    | none => .error ("value is not a valid integer: " ++ k)

/-- Pydantic validation of an `Optional[str]` field from a field bag:
missing gives `None`; a string is taken as is; an integer is a validation
error. -/
def getStrField (hit : List (String × Value)) (k : String) :
    Except String (Option String) :=
  match List.lookup k hit with
  | none => .ok none
  | some (.vstr s) => .ok (some s)
  | some (.vint _) => .error ("value is not a valid string: " ++ k)

/-- `PersonResponse(**hit_source)`: per-field pydantic extraction; keys of
the bag other than the nine field names are never consulted; the first
field whose present value has an incompatible type fails the whole
construction. -/
def mkPerson (hit : List (String × Value)) : Except String PersonResponse :=
  Except.bind (getIntField hit "uid") fun uid =>
  Except.bind (getStrField hit "first_name") fun first_name =>
  Except.bind (getStrField hit "last_name") fun last_name =>
  Except.bind (getStrField hit "email") fun email =>
  Except.bind (getStrField hit "phone") fun phone =>
  Except.bind (getStrField hit "gender") fun gender =>
  Except.bind (getStrField hit "location") fun location =>
  Except.bind (getStrField hit "hometown") fun hometown =>
  Except.bind (getStrField hit "relationship_status") fun relationship_status =>
  Except.ok { uid, first_name, last_name, email, phone, gender, location,
              hometown, relationship_status }

/-- The list comprehension `[PersonResponse(**hit['_source']) for hit in hits]`:
left to right, the first construction failure aborts the whole list. -/
def hitsToPersons : List (List (String × Value)) → Except String (List PersonResponse)
  | [] => .ok []
  | h :: t =>
    match mkPerson h with
    | .error e => .error e
    | .ok p =>
      match hitsToPersons t with
      | .error e => .error e
      | .ok ps => .ok (p :: ps)

/-- A value (when present) is acceptable for the integer `uid` field. -/
def valueIsInt : Option Value → Bool
  | none => true
  | some (.vint _) => true
  | some (.vstr s) => (parseIntString s).isSome

/-- A value (when present) is acceptable for a string field. -/
def valueIsStr : Option Value → Bool
  | none => true
  | some (.vstr _) => true
  | some (.vint _) => false

/-- Every present same-named field of the hit has a type compatible with
its `PersonResponse` field. -/
def compatibleHit (hit : List (String × Value)) : Bool :=
  valueIsInt (List.lookup "uid" hit)
  && valueIsStr (List.lookup "first_name" hit)
  && valueIsStr (List.lookup "last_name" hit)
  && valueIsStr (List.lookup "email" hit)
  && valueIsStr (List.lookup "phone" hit)
  && valueIsStr (List.lookup "gender" hit)
  && valueIsStr (List.lookup "location" hit)
  && valueIsStr (List.lookup "hometown" hit)
  && valueIsStr (List.lookup "relationship_status" hit)

/-- The integer a compatible hit value normalizes to (`none` iff missing). -/
def intValOf : Option Value → Option Int
  | none => none
  | some (.vint n) => some n
  | some (.vstr s) => parseIntString s

/-- The string a compatible hit value normalizes to (`none` iff missing). -/
def strValOf : Option Value → Option String
  | some (.vstr s) => some s
  | _ => none

/-! ## Configuration (the source's environment defaults) -/

/-- `INDEX_PATTERN` default. -/
def DEFAULT_INDEX_PATTERN : String := "fbus*,smfb*,smfbgermania*"

/-- `API_USERNAME` default. -/
def API_USERNAME : String := "admin"

/-- `API_PASSWORD` default. -/
def API_PASSWORD : String := "admin123"

/-! ## Query builder: the four backend query documents -/

/-- An Elasticsearch query clause as built by this service: exact-match
`term` on one value, or exact-match-in-set `terms` on a list of integers. -/
inductive ESQuery where
  | term (field : String) (value : Value)
  | terms (field : String) (values : List Int)
deriving DecidableEq, Repr

/-- One bucketed-term aggregation request:
`\x7bname: \x7b"terms": \x7b"field": field, "size": size\x7d\x7d\x7d`. -/
structure AggSpec where
  name : String
  field : String
  size : Nat
deriving DecidableEq, Repr

/-- A search request body: optional query clause, optional result-size
hint, optional aggregation. Absent keys are `none`. -/
structure SearchBody where
  query : Option ESQuery
  size : Option Nat
  aggs : Option AggSpec
deriving DecidableEq, Repr

/-- Body built by `search_by_uid`: `\x7b"query": \x7b"term": \x7b"uid": uid\x7d\x7d\x7d`. -/
def uidQueryBody (uid : Int) : SearchBody :=
  { query := some (.term "uid" (.vint uid)), size := none, aggs := none }

/-- Body built by `search_multiple_uids`:
`\x7b"query": \x7b"terms": \x7b"uid": uids\x7d\x7d, "size": len(uids)\x7d`. -/
def uidsQueryBody (uids : List Int) : SearchBody :=
  { query := some (.terms "uid" uids), size := some uids.length, aggs := none }

/-- Body built by `search_by_email`:
`\x7b"query": \x7b"term": \x7b"email.keyword": email\x7d\x7d\x7d`. -/
def emailQueryBody (email : String) : SearchBody :=
  { query := some (.term "email.keyword" (.vstr email)), size := none, aggs := none }

/-- Body built by `get_statistics` for the aggregation call: `size: 0`,
one `terms` aggregation named `genders` on `gender.keyword` capped at 10
buckets. -/
def statsAggBody : SearchBody :=
  { query := none, size := some 0,
    aggs := some { name := "genders", field := "gender.keyword", size := 10 } }

/-- Modelled external Elasticsearch paging semantics (not repository
code): the number of hits a search returns is the number of matching
documents capped by the body's size hint, or by the backend's default
page size when the body carries none. -/
def esReturnedHits (body : SearchBody) (defaultPage matching : Nat) : Nat :=
  min matching (match body.size with | some s => s | none => defaultPage)

/-! ## Request model -/

/-- How a caller supplied an optional JSON body field: absent, explicit
`null`, or an explicit string. -/
inductive FieldInput where
  | absent
  | null
  | strVal (s : String)
deriving DecidableEq, Repr

/-- Pydantic resolution of `index_pattern: Optional[str] = DEFAULT_INDEX_PATTERN`:
an absent field takes the default, an explicit `null` stays `None`, an
explicit string is kept. -/
def resolveIndexPattern : FieldInput → Option String
  | .absent => some DEFAULT_INDEX_PATTERN
  | .null => none
  | .strVal s => some s

/-- `UIDSearchRequest` after validation: `uids: List[int]` with
`min_items=1, max_items=1000`, and the resolved (nullable) index pattern. -/
structure UIDSearchRequest where
  uids : List Int
  index_pattern : Option String
deriving DecidableEq, Repr

/-- An HTTP error response: status code, detail text, extra headers. -/
structure HTTPError where
  status : Nat
  detail : String
  headers : List (String × String)
deriving DecidableEq, Repr

/-- The 422 response FastAPI produces when pydantic body validation fails. -/
def validationError422 : HTTPError :=
  { status := 422, detail := "request validation failed", headers := [] }

/-- Pydantic construction of `UIDSearchRequest`: succeeds exactly when the
uid list has length 1..1000; a violating request is rejected whole (HTTP
422), never truncated. -/
def mkUIDSearchRequest (uids : List Int) (ip : FieldInput) :
    Except HTTPError UIDSearchRequest :=
  if 1 ≤ uids.length ∧ uids.length ≤ 1000 then
    .ok { uids := uids, index_pattern := resolveIndexPattern ip }
  else
    .error validationError422

/-! ## Auth gate -/

/-- The buffer CPython's `_tscmp` actually scans against `b`: `a` when
the lengths agree, otherwise `b` itself (so the scan length never depends
on `a`). -/
def tscmpLeft (a b : List Char) : List Char :=
  if a.length = b.length then a else b

/-- CPython's `secrets.compare_digest` loop (`_tscmp`) on character lists,
instrumented with its cost: the accumulator starts as the length
equality, every scanned position is folded in with `&&` (never decided
early), and exactly `b.length` positions are scanned regardless of where
the inputs first differ. First component: the comparison result; second:
the number of positions examined. -/
def tscmp (a b : List Char) : Bool × Nat :=
  (((tscmpLeft a b).zip b).foldl (fun acc p => acc && (p.1 == p.2))
      (a.length == b.length),
   ((tscmpLeft a b).zip b).length)

/-- `secrets.compare_digest` on strings: the comparison result of `tscmp`. -/
def compareDigest (a b : String) : Bool :=
  (tscmp a.data b.data).1

/-- The uniform 401 challenge response raised on any credential failure. -/
def auth401 : HTTPError :=
  { status := 401, detail := "Invalid credentials",
    headers := [("WWW-Authenticate", "Basic")] }

/-- `verify_credentials`: compares the supplied username and password each
against the configured value with `compare_digest`, and rejects with a
uniform 401 challenge unless both matched. -/
def verify_credentials (u p : String) : Except HTTPError String :=
  let correct_username := compareDigest u API_USERNAME
  let correct_password := compareDigest p API_PASSWORD
  if correct_username && correct_password then .ok u
  else .error auth401

/-- The comparison cost `verify_credentials` incurs: both `compare_digest`
calls run before the accept/reject decision, so their costs always add. -/
def verify_credentials_cost (u p : String) : Nat :=
  (tscmp u.data API_USERNAME.data).2 + (tscmp p.data API_PASSWORD.data).2

/-! ## Backend client adapter and handlers -/

/-- What an `es.search` call yields when it succeeds: the raw hit
`_source` bags and, for aggregation queries, the `genders` buckets as
(key, doc_count) pairs in backend order. -/
structure ESResponse where
  hits : List (List (String × Value))
  genderBuckets : List (String × Nat)
deriving DecidableEq, Repr

/-- The backend as seen by one request: whether the client object exists
(`es is not None`), what `es.ping()` reports, and the outcomes of
`es.search` / `es.count` as functions of the index argument (possibly
`None`) and request body. -/
structure Backend where
  esExists : Bool
  pingOk : Bool
  search : Option String → SearchBody → Except String ESResponse
  count : Option String → Except String Nat

/-- One query issued to the backend (connectivity pings are not queries). -/
inductive BackendCall where
  | search (index : Option String) (body : SearchBody)
  | count (index : Option String)
deriving DecidableEq, Repr

/-- The successful search response shape (`query_time_ms`, a wall-clock
measurement, is outside the embedding). -/
structure SearchResponse where
  success : Bool
  count : Nat
  results : List PersonResponse
deriving DecidableEq, Repr

/-- The successful stats response shape. -/
structure StatsResponse where
  success : Bool
  total_documents : Nat
  genders : List (String × Nat)
deriving DecidableEq, Repr

/-- The 503 raised by `check_elasticsearch`. -/
def es503 : HTTPError :=
  { status := 503, detail := "Elasticsearch unavailable", headers := [] }

/-- `check_elasticsearch`: fails 503 when the client is missing or the
ping probe reports false. -/
def check_elasticsearch (b : Backend) : Except HTTPError Unit :=
  if b.esExists && b.pingOk then .ok () else .error es503

/-- Shared tail of the three search handlers: execute the built query,
normalize every hit, wrap with count metadata; any exception from the
query or normalization step maps to a 500. Also returns the trace of
queries issued. -/
def runSearch (b : Backend) (index : Option String) (body : SearchBody) :
    Except HTTPError SearchResponse × List BackendCall :=
  match b.search index body with
  | .error e => (.error { status := 500, detail := e, headers := [] },
                 [.search index body])
  | .ok resp =>
    match hitsToPersons resp.hits with
    | .error e => (.error { status := 500, detail := e, headers := [] },
                   [.search index body])
    | .ok results => (.ok { success := true, count := results.length,
                            results := results },
                      [.search index body])

/-- `GET /search/uid/\x7buid\x7d` handler body (post-auth): connectivity gate,
then a `term` query on `uid` against the given or defaulted index
pattern. -/
def search_by_uid (b : Backend) (uid : Int) (qip : Option String) :
    Except HTTPError SearchResponse × List BackendCall :=
  let index_pattern := qip.getD DEFAULT_INDEX_PATTERN
  if b.esExists && b.pingOk then
    runSearch b (some index_pattern) (uidQueryBody uid)
  else (.error es503, [])

/-- `POST /search/uids` handler body (post-auth, post-validation):
connectivity gate, then a `terms` query on `uid` sized to the batch,
against the request's (nullable) index pattern. -/
def search_multiple_uids (b : Backend) (req : UIDSearchRequest) :
    Except HTTPError SearchResponse × List BackendCall :=
  if b.esExists && b.pingOk then
    runSearch b req.index_pattern (uidsQueryBody req.uids)
  else (.error es503, [])

/-- The `POST /search/uids` endpoint: pydantic body validation first (422
on failure, before any backend interaction), then the handler. -/
def post_search_uids (b : Backend) (uids : List Int) (ip : FieldInput) :
    Except HTTPError SearchResponse × List BackendCall :=
  match mkUIDSearchRequest uids ip with
  | .error e => (.error e, [])
  | .ok req => search_multiple_uids b req

/-- `GET /search/email/\x7bemail\x7d` handler body (post-auth): connectivity
gate, then a `term` query on `email.keyword`. -/
def search_by_email (b : Backend) (email : String) (qip : Option String) :
    Except HTTPError SearchResponse × List BackendCall :=
  let index_pattern := qip.getD DEFAULT_INDEX_PATTERN
  if b.esExists && b.pingOk then
    runSearch b (some index_pattern) (emailQueryBody email)
  else (.error es503, [])

/-- `GET /stats` handler body (post-auth): connectivity gate, then
`es.count` followed by the gender aggregation search; either failure
fails the whole request with a 500 and no partial stats are returned. -/
def get_statistics (b : Backend) (qip : Option String) :
    Except HTTPError StatsResponse × List BackendCall :=
  let index_pattern := qip.getD DEFAULT_INDEX_PATTERN
  if b.esExists && b.pingOk then
    match b.count (some index_pattern) with
    | .error e => (.error { status := 500, detail := e, headers := [] },
                   [.count (some index_pattern)])
    | .ok total =>
      match b.search (some index_pattern) statsAggBody with
      | .error e => (.error { status := 500, detail := e, headers := [] },
                     [.count (some index_pattern),
                      .search (some index_pattern) statsAggBody])
      | .ok resp =>
        (.ok { success := true, total_documents := total,
               genders := resp.genderBuckets },
         [.count (some index_pattern),
          .search (some index_pattern) statsAggBody])
  else (.error es503, [])

/-! ## Concrete backends used to evaluate the theorems -/

/-- A reachable backend whose queries succeed with no hits. -/
def okBackend : Backend :=
  { esExists := true, pingOk := true,
    search := fun _ _ => .ok { hits := [], genderBuckets := [] },
    count := fun _ => .ok 0 }

/-- An unreachable backend (`es.ping()` false, probe fails). -/
def downBackend : Backend :=
  { esExists := false, pingOk := false,
    search := fun _ _ => .error "connection refused",
    count := fun _ => .error "connection refused" }

/-- A well-formed hit used in concrete evaluations. -/
def goodHit : List (String × Value) :=
  [("uid", Value.vint 1), ("first_name", Value.vstr "A")]

/-- A malformed hit: a non-numeric string where the integer `uid` is
expected. -/
def badHit : List (String × Value) :=
  [("uid", Value.vstr "not-an-integer")]

/-- A reachable backend returning one well-formed and one malformed hit. -/
def badHitBackend : Backend :=
  { esExists := true, pingOk := true,
    search := fun _ _ => .ok { hits := [goodHit, badHit], genderBuckets := [] },
    count := fun _ => .ok 2 }

/-- A reachable backend realizing the spec's stats scenario: total 100,
gender buckets male 60 / female 40. -/
def statsBackend : Backend :=
  { esExists := true, pingOk := true,
    search := fun _ _ => .ok { hits := [],
                               genderBuckets := [("male", 60), ("female", 40)] },
    count := fun _ => .ok 100 }

/-- A hit with two populated fields and one unknown extra key. -/
def demoHit : List (String × Value) :=
  [("uid", Value.vint 42), ("first_name", Value.vstr "A"),
   ("unknown_key", Value.vint 7)]

/-! ## Helper lemmas -/

/-- Folding `&&` from a false accumulator can never recover: the scan is
not decided early, the flag only records mismatches. -/
theorem foldl_and_false (ps : List (Char × Char)) :
    ps.foldl (fun acc p => acc && (p.1 == p.2)) false = false := by
  induction ps with
  | nil => rfl
  | cons p t ih => simpa using ih

/-- For equal-length lists, the `tscmp` fold from a true accumulator
decides exactly list equality. -/
theorem foldl_and_zip (a b : List Char) (h : a.length = b.length) :
    (((a.zip b).foldl (fun acc p => acc && (p.1 == p.2)) true) = true) ↔ a = b := by
  induction a generalizing b with
  | nil =>
    cases b with
    | nil => simp
    | cons y ys => simp at h
  | cons x xs ih =>
    cases b with
    | nil => simp at h
    | cons y ys =>
      have hlen : xs.length = ys.length := by simpa using h
      by_cases hxy : x = y
      · subst hxy
        simpa using ih ys hlen
      · have : (x == y) = false := by simp [hxy]
        simp [List.zip, this, foldl_and_false, hxy]

/-- The `tscmp` comparison result is exactly equality of its inputs. -/
theorem tscmp_fst_iff (a b : List Char) : (tscmp a b).1 = true ↔ a = b := by
  by_cases h : a.length = b.length
  · have hleft : tscmpLeft a b = a := by simp [tscmpLeft, h]
    have hinit : (a.length == b.length) = true := by simp [h]
    simp only [tscmp, hleft, hinit]
    exact foldl_and_zip a b h
  · have hleft : tscmpLeft a b = b := by simp [tscmpLeft, h]
    have hinit : (a.length == b.length) = false := by simp [h]
    simp only [tscmp, hleft, hinit, foldl_and_false]
    constructor
    · intro hc; cases hc
    · intro he; exact absurd (by rw [he]) h

/-- The `tscmp` cost is exactly the length of its second argument, whatever
the first argument holds. -/
theorem tscmp_cost (a b : List Char) : (tscmp a b).2 = b.length := by
  by_cases h : a.length = b.length
  · have hleft : tscmpLeft a b = a := by simp [tscmpLeft, h]
    simp [tscmp, hleft, h]
  · have hleft : tscmpLeft a b = b := by simp [tscmpLeft, h]
    simp [tscmp, hleft]

/-- `compare_digest` of equal strings is true. -/
theorem compareDigest_true (a b : String) (h : a = b) :
    compareDigest a b = true :=
  (tscmp_fst_iff a.data b.data).mpr (by rw [h])

/-- `compare_digest` of distinct strings is false. -/
theorem compareDigest_false (a b : String) (h : a ≠ b) :
    compareDigest a b = false := by
  cases hc : compareDigest a b
  · rfl
  · have : a.data = b.data := (tscmp_fst_iff a.data b.data).mp hc
    exact absurd (String.ext this) h

/-- When the present value is acceptable for an integer field, extraction
succeeds with exactly `intValOf` of the looked-up value. -/
theorem getIntField_ok (hit : List (String × Value)) (k : String)
    (h : valueIsInt (List.lookup k hit) = true) :
    getIntField hit k = .ok (intValOf (List.lookup k hit)) := by
  cases hl : List.lookup k hit with
  | none => simp [getIntField, intValOf, hl]
  | some v =>
    cases v with
    | vint n => simp [getIntField, intValOf, hl]
    | vstr s =>
      rw [hl] at h
      simp only [valueIsInt] at h
      obtain ⟨n, hn⟩ := Option.isSome_iff_exists.mp h
      simp [getIntField, intValOf, hl, hn]

/-- When the present value is acceptable for a string field, extraction
succeeds with exactly `strValOf` of the looked-up value. -/
theorem getStrField_ok (hit : List (String × Value)) (k : String)
    (h : valueIsStr (List.lookup k hit) = true) :
    getStrField hit k = .ok (strValOf (List.lookup k hit)) := by
  cases hl : List.lookup k hit with
  | none => simp [getStrField, strValOf, hl]
  | some v =>
    cases v with
    | vint n => rw [hl] at h; simp [valueIsStr] at h
    | vstr s => simp [getStrField, strValOf, hl]

/-- Integer-field extraction only consults the lookup of its own key. -/
theorem getIntField_congr (hit2 hit : List (String × Value)) (k : String)
    (h : List.lookup k hit2 = List.lookup k hit) :
    getIntField hit2 k = getIntField hit k := by
  unfold getIntField
  rw [h]

/-- String-field extraction only consults the lookup of its own key. -/
theorem getStrField_congr (hit2 hit : List (String × Value)) (k : String)
    (h : List.lookup k hit2 = List.lookup k hit) :
    getStrField hit2 k = getStrField hit k := by
  unfold getStrField
  rw [h]

/-- Every branch of the shared search tail issues exactly the one built
query. -/
theorem runSearch_trace (b : Backend) (i : Option String) (body : SearchBody) :
    (runSearch b i body).2 = [.search i body] := by
  unfold runSearch
  cases hs : b.search i body with
  | error e => rfl
  | ok resp => cases hp : hitsToPersons resp.hits <;> simp [hp]

/-- If every hit before `bad` normalizes and `bad` fails with `e`, the
whole normalization fails with `e`. -/
theorem hitsToPersons_firstError (pre : List (List (String × Value)))
    (bad : List (String × Value)) (post : List (List (String × Value)))
    (e : String)
    (hpre : ∀ x ∈ pre, ∃ p, mkPerson x = .ok p)
    (hbad : mkPerson bad = .error e) :
    hitsToPersons (pre ++ bad :: post) = .error e := by
  induction pre with
  | nil => simp [hitsToPersons, hbad]
  | cons a t ih =>
    obtain ⟨p, hp⟩ := hpre a (by simp)
    have ht := ih (fun x hx => hpre x (by simp [hx]))
    simp [hitsToPersons, hp, ht]

/-! ## Claim theorems -/

/-- C2: for every valid `UIDSearchRequest` (uid list of length 1..1000)
handled against a reachable backend, the one query document sent to the
backend is a `terms` query on field `uid` carrying exactly the request's
uid list, and the result-size hint equals the batch length. -/
theorem C2_batch_query_terms_and_size (b : Backend) (req : UIDSearchRequest)
    (hlen : 1 ≤ req.uids.length ∧ req.uids.length ≤ 1000)
    (hup : (b.esExists && b.pingOk) = true) :
    ∃ body, (search_multiple_uids b req).2 = [.search req.index_pattern body]
      ∧ body.query = some (.terms "uid" req.uids)
      ∧ body.size = some req.uids.length := by
  refine ⟨uidsQueryBody req.uids, ?_, rfl, rfl⟩
  simp [search_multiple_uids, hup, runSearch_trace]

/-- C2 witness: the spec's scenario `uids=[1,2,3]`: the size hint sent to
the backend equals 3 and the query is `terms` on exactly `[1,2,3]`. -/
theorem C2_batch_query_terms_and_size_witness :
    ∃ body,
      (search_multiple_uids okBackend
          { uids := [1, 2, 3], index_pattern := some "idx" }).2
        = [.search (some "idx") body]
      ∧ body.query = some (.terms "uid" [1, 2, 3])
      ∧ body.size = some 3 := by
  have h := C2_batch_query_terms_and_size okBackend
    { uids := [1, 2, 3], index_pattern := some "idx" } (by decide) rfl
  simpa using h

/-- C3: `UIDSearchRequest` construction succeeds, preserving the uid list
untruncated, exactly for lengths 1..1000; for length 0 or above 1000 it
fails with the 422 validation error, and the endpoint then returns that
error without any backend call. -/
theorem C3_batch_length_validation (uids : List Int) (f : FieldInput)
    (b : Backend) :
    (1 ≤ uids.length ∧ uids.length ≤ 1000 →
       mkUIDSearchRequest uids f
         = .ok { uids := uids, index_pattern := resolveIndexPattern f })
    ∧ (uids.length = 0 ∨ 1000 < uids.length →
       mkUIDSearchRequest uids f = .error validationError422
       ∧ post_search_uids b uids f = (.error validationError422, [])) := by
  constructor
  · intro h
    simp [mkUIDSearchRequest, h]
  · intro h
    have hneg : ¬(1 ≤ uids.length ∧ uids.length ≤ 1000) := by omega
    constructor
    · simp [mkUIDSearchRequest, hneg]
    · simp [post_search_uids, mkUIDSearchRequest, hneg]

/-- C3 witness: a singleton batch is accepted untruncated with the
defaulted index pattern; an empty batch is rejected 422 with no backend
call issued. -/
theorem C3_batch_length_validation_witness :
    mkUIDSearchRequest [5] FieldInput.absent
      = .ok { uids := [5], index_pattern := some DEFAULT_INDEX_PATTERN }
    ∧ post_search_uids okBackend [] FieldInput.absent
      = (.error validationError422, []) := by
  constructor
  · have h := (C3_batch_length_validation [5] FieldInput.absent okBackend).1
      (by decide)
    simpa using h
  · exact ((C3_batch_length_validation [] FieldInput.absent okBackend).2
      (Or.inl rfl)).2

/-- C5: authentication succeeds exactly when both the supplied username
and password equal the configured values; every failure yields the same
401 response carrying the `WWW-Authenticate: Basic` challenge and a
uniform detail that does not depend on which credential was wrong. -/
theorem C5_auth_iff_and_uniform_401 (u p : String) :
    (verify_credentials u p = .ok u ↔ (u = API_USERNAME ∧ p = API_PASSWORD))
    ∧ (¬(u = API_USERNAME ∧ p = API_PASSWORD) →
       verify_credentials u p = .error
         { status := 401, detail := "Invalid credentials",
           headers := [("WWW-Authenticate", "Basic")] }) := by
  by_cases h1 : u = API_USERNAME <;> by_cases h2 : p = API_PASSWORD
  · have c1 := compareDigest_true u API_USERNAME h1
    have c2 := compareDigest_true p API_PASSWORD h2
    refine ⟨?_, fun hc => absurd ⟨h1, h2⟩ hc⟩
    simp only [verify_credentials, c1, c2, Bool.and_self, if_true]
    exact iff_of_true trivial ⟨h1, h2⟩
  · have c1 := compareDigest_true u API_USERNAME h1
    have c2 := compareDigest_false p API_PASSWORD h2
    refine ⟨?_, fun _ => ?_⟩ <;>
      simp [verify_credentials, auth401, c1, c2, h2]
  · have c1 := compareDigest_false u API_USERNAME h1
    have c2 := compareDigest_true p API_PASSWORD h2
    refine ⟨?_, fun _ => ?_⟩ <;>
      simp [verify_credentials, auth401, c1, c2, h1]
  · have c1 := compareDigest_false u API_USERNAME h1
    have c2 := compareDigest_false p API_PASSWORD h2
    refine ⟨?_, fun _ => ?_⟩ <;>
      simp [verify_credentials, auth401, c1, c2, h1]

/-- C5 witness: the default credentials are accepted; a wrong password is
rejected with exactly the uniform 401 challenge response. -/
theorem C5_auth_iff_and_uniform_401_witness :
    verify_credentials "admin" "admin123" = .ok "admin"
    ∧ verify_credentials "admin" "wrong" = .error
        { status := 401, detail := "Invalid credentials",
          headers := [("WWW-Authenticate", "Basic")] } := by
  constructor
  · exact (C5_auth_iff_and_uniform_401 "admin" "admin123").1.mpr
      ⟨rfl, rfl⟩
  · exact (C5_auth_iff_and_uniform_401 "admin" "wrong").2 (by decide)

/-- C6: the auth gate's comparison cost is the same for every pair of
supplied credentials — in particular it does not depend on the position
of the first mismatched character — and it always equals the sum of both
comparisons' costs, i.e. both username and password are compared before
the accept/reject decision. -/
theorem C6_constant_time_comparison (u1 p1 u2 p2 : String) :
    verify_credentials_cost u1 p1 = verify_credentials_cost u2 p2
    ∧ verify_credentials_cost u1 p1
        = API_USERNAME.data.length + API_PASSWORD.data.length := by
  constructor <;> simp [verify_credentials_cost, tscmp_cost]

/-- C7: when the backend client is missing or its connectivity probe
reports false, every authenticated search or stats handler returns the
503 error and issues no backend query at all. -/
theorem C7_unreachable_backend_503_no_query (b : Backend)
    (hdown : (b.esExists && b.pingOk) = false) (uid : Int) (email : String)
    (qip : Option String) (req : UIDSearchRequest) :
    search_by_uid b uid qip = (.error es503, [])
    ∧ search_multiple_uids b req = (.error es503, [])
    ∧ search_by_email b email qip = (.error es503, [])
    ∧ get_statistics b qip = (.error es503, []) := by
  refine ⟨?_, ?_, ?_, ?_⟩ <;>
    simp [search_by_uid, search_multiple_uids, search_by_email,
          get_statistics, hdown]

/-- C7 witness: against the unreachable backend, the single-uid search
and the stats endpoint both return 503 with an empty query trace. -/
theorem C7_unreachable_backend_503_no_query_witness :
    search_by_uid downBackend 42 (some "idx") = (.error es503, [])
    ∧ get_statistics downBackend (some "idx") = (.error es503, []) := by
  have h := C7_unreachable_backend_503_no_query downBackend rfl 42 "e"
    (some "idx") { uids := [1], index_pattern := none }
  exact ⟨h.1, h.2.2.2⟩

/-- C9: the stats handler issues the count query first and the
aggregation query second — the latter a zero-hit body carrying one
bucketed-term aggregation on `gender.keyword` capped at 10 buckets; when
both succeed the response is success with the count as
`total_documents` and the buckets in backend order; when the count fails
the aggregation is never issued and the request fails 500; when the
aggregation fails the request fails 500 with no partial stats. -/
theorem C9_stats_two_calls_all_or_nothing (b : Backend) (qip : Option String)
    (hup : (b.esExists && b.pingOk) = true) :
    (∀ total resp,
        b.count (some (qip.getD DEFAULT_INDEX_PATTERN)) = .ok total →
        b.search (some (qip.getD DEFAULT_INDEX_PATTERN)) statsAggBody = .ok resp →
        get_statistics b qip =
          (.ok { success := true, total_documents := total,
                 genders := resp.genderBuckets },
           [.count (some (qip.getD DEFAULT_INDEX_PATTERN)),
            .search (some (qip.getD DEFAULT_INDEX_PATTERN)) statsAggBody]))
    ∧ (∀ e, b.count (some (qip.getD DEFAULT_INDEX_PATTERN)) = .error e →
        get_statistics b qip =
          (.error { status := 500, detail := e, headers := [] },
           [.count (some (qip.getD DEFAULT_INDEX_PATTERN))]))
    ∧ (∀ total e,
        b.count (some (qip.getD DEFAULT_INDEX_PATTERN)) = .ok total →
        b.search (some (qip.getD DEFAULT_INDEX_PATTERN)) statsAggBody = .error e →
        get_statistics b qip =
          (.error { status := 500, detail := e, headers := [] },
           [.count (some (qip.getD DEFAULT_INDEX_PATTERN)),
            .search (some (qip.getD DEFAULT_INDEX_PATTERN)) statsAggBody]))
    ∧ statsAggBody.size = some 0
    ∧ statsAggBody.aggs
        = some { name := "genders", field := "gender.keyword", size := 10 } := by
  refine ⟨?_, ?_, ?_, rfl, rfl⟩
  · intro total resp hcount hsearch
    simp [get_statistics, hup, hcount, hsearch]
  · intro e hcount
    simp [get_statistics, hup, hcount]
  · intro total e hcount hsearch
    simp [get_statistics, hup, hcount, hsearch]

/-- C9 witness: the spec's scenario — total 100, buckets male 60 and
female 40 — produces exactly the success response with both calls traced
in order. -/
theorem C9_stats_two_calls_all_or_nothing_witness :
    get_statistics statsBackend (some "idx") =
      (.ok { success := true, total_documents := 100,
             genders := [("male", 60), ("female", 40)] },
       [.count (some "idx"), .search (some "idx") statsAggBody]) := by
  have h := (C9_stats_two_calls_all_or_nothing statsBackend (some "idx") rfl).1
    100 { hits := [], genderBuckets := [("male", 60), ("female", 40)] } rfl rfl
  simpa using h

/-- C10: the single-uid and email query bodies consist of the term query
alone — no size hint, no aggregation — so under the modelled backend
paging semantics the number of hits returned is capped by the backend's
default page size, while the batch body sets the size explicitly to the
batch length and is capped by that instead. -/
theorem C10_default_page_cap_single_and_email (uid : Int) (email : String)
    (uids : List Int) (defaultPage matching : Nat) :
    (uidQueryBody uid).query = some (.term "uid" (.vint uid))
    ∧ (uidQueryBody uid).size = none
    ∧ (uidQueryBody uid).aggs = none
    ∧ (emailQueryBody email).query = some (.term "email.keyword" (.vstr email))
    ∧ (emailQueryBody email).size = none
    ∧ (emailQueryBody email).aggs = none
    ∧ (uidsQueryBody uids).size = some uids.length
    ∧ esReturnedHits (uidQueryBody uid) defaultPage matching ≤ defaultPage
    ∧ esReturnedHits (emailQueryBody email) defaultPage matching ≤ defaultPage
    ∧ esReturnedHits (uidsQueryBody uids) defaultPage matching
        = min matching uids.length := by
  refine ⟨rfl, rfl, rfl, rfl, rfl, rfl, rfl, ?_, ?_, rfl⟩ <;>
    simp [esReturnedHits, uidQueryBody, emailQueryBody]

/-- C4: for every hit field bag whose present same-named fields have
compatible types, `PersonResponse` construction succeeds; each of the
nine fields takes the hit's value exactly when present and is `none`
exactly when missing, and any two bags agreeing on the nine field names
normalize identically, so unknown extra keys are ignored and no value is
invented. -/
theorem C4_partial_field_normalization (hit : List (String × Value))
    (h : compatibleHit hit = true) :
    mkPerson hit = .ok
      { uid := intValOf (List.lookup "uid" hit),
        first_name := strValOf (List.lookup "first_name" hit),
        last_name := strValOf (List.lookup "last_name" hit),
        email := strValOf (List.lookup "email" hit),
        phone := strValOf (List.lookup "phone" hit),
        gender := strValOf (List.lookup "gender" hit),
        location := strValOf (List.lookup "location" hit),
        hometown := strValOf (List.lookup "hometown" hit),
        relationship_status := strValOf (List.lookup "relationship_status" hit) }
    ∧ ∀ hit2 : List (String × Value),
        (∀ k ∈ personFieldNames, List.lookup k hit2 = List.lookup k hit) →
        mkPerson hit2 = mkPerson hit := by
  simp only [compatibleHit, Bool.and_eq_true] at h
  obtain ⟨⟨⟨⟨⟨⟨⟨⟨h1, h2⟩, h3⟩, h4⟩, h5⟩, h6⟩, h7⟩, h8⟩, h9⟩ := h
  constructor
  · simp only [mkPerson, getIntField_ok _ _ h1, getStrField_ok _ _ h2,
      getStrField_ok _ _ h3, getStrField_ok _ _ h4, getStrField_ok _ _ h5,
      getStrField_ok _ _ h6, getStrField_ok _ _ h7, getStrField_ok _ _ h8,
      getStrField_ok _ _ h9, Except.bind]
  · intro hit2 hk
    have e1 := hk "uid" (by simp [personFieldNames])
    have e2 := hk "first_name" (by simp [personFieldNames])
    have e3 := hk "last_name" (by simp [personFieldNames])
    have e4 := hk "email" (by simp [personFieldNames])
    have e5 := hk "phone" (by simp [personFieldNames])
    have e6 := hk "gender" (by simp [personFieldNames])
    have e7 := hk "hometown" (by simp [personFieldNames])
    have e8 := hk "location" (by simp [personFieldNames])
    have e9 := hk "relationship_status" (by simp [personFieldNames])
    simp only [mkPerson,
      getIntField_congr _ _ _ e1, getStrField_congr _ _ _ e2,
      getStrField_congr _ _ _ e3, getStrField_congr _ _ _ e4,
      getStrField_congr _ _ _ e5, getStrField_congr _ _ _ e6,
      getStrField_congr _ _ _ e7, getStrField_congr _ _ _ e8,
      getStrField_congr _ _ _ e9]

/-- C4 witness: a hit carrying only `uid` and `first_name` plus an
unknown key normalizes to a person with exactly those two fields set and
the other seven `none`. -/
theorem C4_partial_field_normalization_witness :
    mkPerson demoHit = .ok
      { uid := some 42, first_name := some "A", last_name := none,
        email := none, phone := none, gender := none, location := none,
        hometown := none, relationship_status := none } := by
  have h := (C4_partial_field_normalization demoHit rfl).1
  rw [h]
  rfl

/-- C1 counterexample: against a reachable backend returning one
well-formed hit and one hit with a non-numeric string `uid`, the batch
search does not return a successful `SearchResult` skipping the offending
hit — the single malformed hit aborts the whole request with a 500. -/
theorem C1_counterexample_batch_aborts :
    compatibleHit goodHit = true
    ∧ (search_multiple_uids badHitBackend
          { uids := [1, 2], index_pattern := some "idx" }).1
        = .error { status := 500,
                   detail := "value is not a valid integer: uid",
                   headers := [] } := by
  exact ⟨rfl, rfl⟩

/-- C1 amended: one malformed hit aborts the whole batch — whenever the
backend answer contains a hit that fails `PersonResponse` construction
(all hits before it constructing fine), the batch request fails with a
500 carrying that hit's validation error, and no partial `SearchResult`
is returned. -/
theorem C1_malformed_hit_aborts_batch (b : Backend) (req : UIDSearchRequest)
    (hup : (b.esExists && b.pingOk) = true) (resp : ESResponse)
    (hresp : b.search req.index_pattern (uidsQueryBody req.uids) = .ok resp)
    (pre : List (List (String × Value))) (bad : List (String × Value))
    (post : List (List (String × Value))) (e : String)
    (hhits : resp.hits = pre ++ bad :: post)
    (hpre : ∀ x ∈ pre, ∃ p, mkPerson x = .ok p)
    (hbad : mkPerson bad = .error e) :
    (search_multiple_uids b req).1
      = .error { status := 500, detail := e, headers := [] } := by
  have hfail : hitsToPersons resp.hits = .error e := by
    rw [hhits]
    exact hitsToPersons_firstError pre bad post e hpre hbad
  simp [search_multiple_uids, hup, runSearch, hresp, hfail]

/-- C1 witness: the concrete two-hit backend answer with the second hit
malformed makes the whole batch request fail 500 with that hit's error. -/
theorem C1_malformed_hit_aborts_batch_witness :
    (search_multiple_uids badHitBackend
        { uids := [1, 2], index_pattern := some "idx" }).1
      = .error { status := 500,
                 detail := "value is not a valid integer: uid",
                 headers := [] } := by
  refine C1_malformed_hit_aborts_batch badHitBackend
    { uids := [1, 2], index_pattern := some "idx" } rfl
    { hits := [goodHit, badHit], genderBuckets := [] } rfl
    [goodHit] badHit [] "value is not a valid integer: uid" rfl ?_ rfl
  intro x hx
  rw [List.mem_singleton] at hx
  subst hx
  exact ⟨_, rfl⟩

/-- C8 counterexample: on the batch endpoint an explicit JSON `null`
index pattern passes validation and is handed to the backend as `null` —
not a string, and not replaced by the configured default. -/
theorem C8_counterexample_null_index_pattern :
    mkUIDSearchRequest [1] FieldInput.null
      = .ok { uids := [1], index_pattern := none }
    ∧ (post_search_uids okBackend [1] FieldInput.null).2
        = [.search none (uidsQueryBody [1])] := by
  exact ⟨rfl, rfl⟩

/-- C8 amended: on the GET search endpoints the index pattern handed to
the backend is always a string — the caller's explicit value or the
configured default — passed through unmodified with no syntax
validation; the batch endpoint likewise passes the caller's explicit
string or the default (when the field is absent) through unmodified, but
an explicit JSON null is accepted and handed to the backend as null
rather than a string. -/
theorem C8_index_pattern_passthrough (b : Backend)
    (hup : (b.esExists && b.pingOk) = true) (uid : Int) (email s : String)
    (qip : Option String) (req : UIDSearchRequest) :
    (search_by_uid b uid qip).2
      = [.search (some (qip.getD DEFAULT_INDEX_PATTERN)) (uidQueryBody uid)]
    ∧ (search_by_email b email qip).2
      = [.search (some (qip.getD DEFAULT_INDEX_PATTERN)) (emailQueryBody email)]
    ∧ (search_multiple_uids b req).2
      = [.search req.index_pattern (uidsQueryBody req.uids)]
    ∧ resolveIndexPattern (FieldInput.strVal s) = some s
    ∧ resolveIndexPattern FieldInput.absent = some DEFAULT_INDEX_PATTERN
    ∧ resolveIndexPattern FieldInput.null = none := by
  refine ⟨?_, ?_, ?_, rfl, rfl, rfl⟩ <;>
    simp [search_by_uid, search_by_email, search_multiple_uids, hup,
          runSearch_trace]

/-- C8 witness: with no explicit query value the single-uid search hands
the configured default pattern, as a string, to the backend unmodified. -/
theorem C8_index_pattern_passthrough_witness :
    (search_by_uid okBackend 7 none).2
      = [.search (some DEFAULT_INDEX_PATTERN) (uidQueryBody 7)] := by
  have h := C8_index_pattern_passthrough okBackend rfl 7 "e" "s" none
    { uids := [1], index_pattern := none }
  simpa using h.1
